import Mathlib

/-!
# Admittance controller of `lbr_ros2_control`

A shallow embedding of `AdmittanceImpl` and `AdmittanceController`
(`admittance_controller.hpp`, `admittance_controller.cpp`) together with the
properties checked against it.

Conventions of the embedding:

* a C++ `double` is read as an exact rational number, so the arithmetic of the
  controller is the arithmetic of `ℚ` (rounding, infinities and NaN are outside
  the model; every division the theorems rely on has a non-zero divisor or a zero
  numerator);
* member variables keep their names; a member function takes the object and
  returns the object it leaves behind;
* the values the controller reads through loaned hardware interfaces in one cycle
  are collected in `CycleInput`; the values held by the loaned command interfaces
  are the field `command_interfaces_`;
* `std::unique_ptr<InvJacCtrlImpl>` is an `Option`; a statement that dereferences
  it while it is null has no defined result, and `update` then yields `none`.
-/

namespace lbr_ros2_control

/-! ## Vectors -/

/-- Modelled from the spec: `lbr_fri_ros2::CARTESIAN_DOF` is declared in
`lbr_fri_ros2/types.hpp`, which is not among the sources; the spec gives a
Cartesian vector six real components, three translational and three rotational. -/
abbrev CARTESIAN_DOF : Nat := 6

/-- The type `Eigen::Matrix<double, CARTESIAN_DOF, 1>`. -/
abbrev CartesianVector : Type := Fin CARTESIAN_DOF → ℚ

/-- The type `Eigen::Matrix<double, 3, 1>`, also the payload of `KDL::Vector`. -/
abbrev Vector3 : Type := Fin 3 → ℚ

/-- The type `lbr_fri_ros2::jnt_array_t`, a `std::array<double, N_JNTS>`; the joint
count `N_JNTS` is declared outside the sources and is a parameter throughout. -/
abbrev jnt_array_t (N_JNTS : Nat) : Type := Fin N_JNTS → ℚ

/-- Eigen `a - b`, coefficient-wise. -/
def vec_sub {n : Nat} (a b : Fin n → ℚ) : Fin n → ℚ := fun i => a i - b i

/-- Eigen `s * a` for a scalar `s`. -/
def scalar_mul {n : Nat} (s : ℚ) (a : Fin n → ℚ) : Fin n → ℚ := fun i => s * a i

/-- Eigen `a * s` for a scalar `s`. -/
def mul_scalar {n : Nat} (a : Fin n → ℚ) (s : ℚ) : Fin n → ℚ := fun i => a i * s

/-- Eigen `a / s` for a scalar `s`. -/
def div_scalar {n : Nat} (a : Fin n → ℚ) (s : ℚ) : Fin n → ℚ := fun i => a i / s

/-- Eigen `setZero()`. -/
def setZero {n : Nat} : Fin n → ℚ := fun _ => 0

/-- Eigen `v.head(3) = a`: coefficients 0, 1, 2 are taken from `a`. -/
def set_head3 (v : CartesianVector) (a : Vector3) : CartesianVector :=
  fun i => if h : i.val < 3 then a ⟨i.val, h⟩ else v i

/-- Eigen `v.tail(3) = a`: the last three coefficients are taken from `a`. -/
def set_tail3 (v : CartesianVector) (a : Vector3) : CartesianVector :=
  fun i => if CARTESIAN_DOF - 3 ≤ i.val
    then a ⟨i.val - (CARTESIAN_DOF - 3), by have := i.isLt; omega⟩ else v i

/-! ## The admittance law -/

/-- The struct `AdmittanceParameters`. -/
structure AdmittanceParameters where
  m : ℚ
  b : ℚ
  k : ℚ

/-- The member initialisers of `AdmittanceParameters`: `m = 1.0`, `b = 0.1`,
`k = 0.0`. -/
def AdmittanceParameters.default : AdmittanceParameters := ⟨1, 1 / 10, 0⟩

/-- The class `AdmittanceImpl`. -/
structure AdmittanceImpl where
  parameters_ : AdmittanceParameters

/-- The member function `AdmittanceImpl::compute`. The three inputs are `const`
references; the out-parameter `ddx` comes back as the second component, the
object itself as the first. -/
def AdmittanceImpl.compute (self : AdmittanceImpl) (f_ext x dx : CartesianVector)
    (_ddx : CartesianVector) : AdmittanceImpl × CartesianVector :=
  (self,
   div_scalar
     (vec_sub (vec_sub f_ext (scalar_mul self.parameters_.b dx))
       (scalar_mul self.parameters_.k x))
     self.parameters_.m)

/-! ## Kinematics and the inverse Jacobian controller -/

/-- Modelled from the spec: `KDL::Rotation` is not among the sources. The
controller only calls `GetRPY` on it, so a rotation is given by the roll, pitch and
yaw that `GetRPY` reports. -/
structure Rotation where
  roll : ℚ
  pitch : ℚ
  yaw : ℚ

/-- The call `M.GetRPY(v[3], v[4], v[5])`: roll, pitch and yaw are written to
coefficients 3, 4 and 5 of `v`. -/
def set_rpy (v : CartesianVector) (M : Rotation) : CartesianVector :=
  fun i =>
    if i.val = 3 then M.roll
    else if i.val = 4 then M.pitch
    else if i.val = 5 then M.yaw
    else v i

/-- Modelled from the spec: `KDL::Frame`, the tip pose returned by forward
kinematics, with its position `p` and orientation `M`. -/
structure Frame where
  p : Vector3
  M : Rotation

/-- Modelled from the spec: `lbr_fri_ros2::InvJacCtrlImpl` is not among the
sources; it is an arbitrary pair of functions. `compute_fk` stands for
`get_kinematics_ptr()->compute_fk(q)`, `compute` for the joint velocity that
`compute(twist, q, dq)` leaves in `dq`. -/
structure InvJacCtrlImpl (N_JNTS : Nat) where
  compute_fk : jnt_array_t N_JNTS → Frame
  compute : CartesianVector → jnt_array_t N_JNTS → jnt_array_t N_JNTS

/-! ## The controller -/

/-- The enumeration `controller_interface::return_type`. -/
inductive return_type where
  | OK
  | ERROR
  deriving DecidableEq, Repr

/-- The enumeration `controller_interface::CallbackReturn`. -/
inductive CallbackReturn where
  | SUCCESS
  | FAILURE
  | ERROR
  deriving DecidableEq, Repr

/-- The data members of `AdmittanceController` that `update`, `on_activate` and
`on_deactivate` read or write, and the values of the loaned joint position command
interfaces. `admittance_impl_ptr_` is set by `on_init` before any other statement
that can fail and is never reset, so it is held by value. -/
structure AdmittanceController (N_JNTS : Nat) where
  initialized_ : Bool
  admittance_impl_ptr_ : AdmittanceImpl
  x_init_ : CartesianVector
  x_prev_ : CartesianVector
  f_ext_ : CartesianVector
  x_ : CartesianVector
  dx_ : CartesianVector
  ddx_ : CartesianVector
  inv_jac_ctrl_impl_ptr_ : Option (InvJacCtrlImpl N_JNTS)
  q_ : jnt_array_t N_JNTS
  dq_ : jnt_array_t N_JNTS
  twist_command_ : CartesianVector
  command_interfaces_ : jnt_array_t N_JNTS

/-- What one call of `update` reads from its collaborators: the estimated forces
and torques, the first `N_JNTS` state interfaces (the joint positions), and the
session state and sample time interfaces. -/
structure CycleInput (N_JNTS : Nat) where
  forces : Vector3
  torques : Vector3
  joint_position : jnt_array_t N_JNTS
  session_state : ℚ
  sample_time : ℚ

/-- The conversion `static_cast<int>` of a `double`: truncation toward zero. -/
def static_cast_int (v : ℚ) : Int := Int.tdiv v.num v.den

/-- Lines 65-74 of `update`: the wrench goes to `f_ext_`, the joint positions
to `q_`. -/
def update_measure {N_JNTS : Nat} (c : AdmittanceController N_JNTS)
    (inp : CycleInput N_JNTS) : AdmittanceController N_JNTS :=
  let c := { c with f_ext_ := set_head3 c.f_ext_ inp.forces }
  let c := { c with f_ext_ := set_tail3 c.f_ext_ inp.torques }
  { c with q_ := fun i => inp.joint_position i }

/-- Lines 77-89 of `update`, for the solver that line 77 dereferences: forward
kinematics, the capture of the reference pose, and the velocity. -/
def update_kinematics {N_JNTS : Nat} (solver : InvJacCtrlImpl N_JNTS)
    (c : AdmittanceController N_JNTS) (period : ℚ) : AdmittanceController N_JNTS :=
  let chain_tip_frame := solver.compute_fk c.q_
  let c := { c with x_ := set_head3 c.x_ chain_tip_frame.p }
  -- line 79: chain_tip_frame.M.GetRPY(x_init_[3], x_init_[4], x_init_[5]);
  let c := { c with x_init_ := set_rpy c.x_init_ chain_tip_frame.M }
  let c := if !c.initialized_
    then { c with x_init_ := c.x_, x_prev_ := c.x_, initialized_ := true }
    else c
  { c with dx_ := div_scalar (vec_sub c.x_ c.x_prev_) period }

/-- The second argument of the call in line 92, `x_ - x_init_`. -/
def displacement {N_JNTS : Nat} (c : AdmittanceController N_JNTS) : CartesianVector :=
  vec_sub c.x_ c.x_init_

/-- Lines 92-98 of `update`: the admittance law, the previous pose, and the
target twist. -/
def update_admittance {N_JNTS : Nat} (c : AdmittanceController N_JNTS) (period : ℚ) :
    AdmittanceController N_JNTS :=
  let r := c.admittance_impl_ptr_.compute c.f_ext_ (displacement c) c.dx_ c.ddx_
  let c := { c with admittance_impl_ptr_ := r.1, ddx_ := r.2 }
  let c := { c with x_prev_ := c.x_ }
  { c with twist_command_ := mul_scalar c.ddx_ period }

/-- Lines 100-119 of `update`: the null check, the session gate, and the joint
position command. `COMMANDING_ACTIVE` is the value of
`KUKA::FRI::ESessionState::COMMANDING_ACTIVE`, declared in `friLBRState.h`. -/
def update_command {N_JNTS : Nat} (COMMANDING_ACTIVE : Int)
    (c : AdmittanceController N_JNTS) (inp : CycleInput N_JNTS) :
    return_type × AdmittanceController N_JNTS :=
  match c.inv_jac_ctrl_impl_ptr_ with
  | none => (return_type.ERROR, c)
  | some solver =>
    if static_cast_int inp.session_state ≠ COMMANDING_ACTIVE then (return_type.OK, c)
    else
      let c := { c with dq_ := solver.compute c.twist_command_ c.q_ }
      let c := { c with
        command_interfaces_ := fun i => c.q_ i + c.dq_ i * inp.sample_time }
      (return_type.OK, c)

/-- The member function `AdmittanceController::update`. The result is `none` when
line 77 dereferences a null `inv_jac_ctrl_impl_ptr_`. -/
def update {N_JNTS : Nat} (COMMANDING_ACTIVE : Int) (c : AdmittanceController N_JNTS)
    (inp : CycleInput N_JNTS) (period : ℚ) :
    Option (return_type × AdmittanceController N_JNTS) :=
  let c := update_measure c inp
  match c.inv_jac_ctrl_impl_ptr_ with
  | none => none
  | some solver =>
    let c := update_kinematics solver c period
    let c := update_admittance c period
    some (update_command COMMANDING_ACTIVE c inp)

/-- The controller after line 98 of `update` when line 77 finds the solver
`solver`: the statements of `update` up to the null check. -/
def update_until_twist {N_JNTS : Nat} (solver : InvJacCtrlImpl N_JNTS)
    (c : AdmittanceController N_JNTS) (inp : CycleInput N_JNTS) (period : ℚ) :
    AdmittanceController N_JNTS :=
  update_admittance (update_kinematics solver (update_measure c inp) period) period

/-- The displacement that `update` hands to `AdmittanceImpl::compute` in line 92:
the same statements as `update` up to that call. -/
def update_displacement {N_JNTS : Nat} (c : AdmittanceController N_JNTS)
    (inp : CycleInput N_JNTS) (period : ℚ) : Option CartesianVector :=
  let c := update_measure c inp
  match c.inv_jac_ctrl_impl_ptr_ with
  | none => none
  | some solver => some (displacement (update_kinematics solver c period))

/-- The member function `AdmittanceController::zero_all_values_`. -/
def zero_all_values_ {N_JNTS : Nat} (c : AdmittanceController N_JNTS) :
    AdmittanceController N_JNTS :=
  { c with
    f_ext_ := setZero
    x_ := setZero
    dx_ := setZero
    ddx_ := setZero
    dq_ := fun _ => 0
    twist_command_ := setZero }

/-- The member function `AdmittanceController::on_activate`. The binding of the
loaned state interfaces is done by `reference_state_interfaces_`, whose outcome is
the argument `referenced`. -/
def on_activate {N_JNTS : Nat} (c : AdmittanceController N_JNTS) (referenced : Bool) :
    CallbackReturn × AdmittanceController N_JNTS :=
  if !referenced then (CallbackReturn.ERROR, c)
  else (CallbackReturn.SUCCESS, zero_all_values_ c)

/-- The member function `AdmittanceController::clear_state_interfaces_`: it drops
the interface bindings and touches no data member of the embedding. -/
def clear_state_interfaces_ {N_JNTS : Nat} (c : AdmittanceController N_JNTS) :
    AdmittanceController N_JNTS := c

/-- The member function `AdmittanceController::on_deactivate`. -/
def on_deactivate {N_JNTS : Nat} (c : AdmittanceController N_JNTS) :
    CallbackReturn × AdmittanceController N_JNTS :=
  (CallbackReturn.SUCCESS, clear_state_interfaces_ c)

/-- A run of consecutive `update` calls, one per entry of `cycles` (cycle input
and period); the result lists the return value and the controller after each
call, and is `none` once a call has no defined result. -/
def run_updates {N_JNTS : Nat} (COMMANDING_ACTIVE : Int) :
    AdmittanceController N_JNTS → List (CycleInput N_JNTS × ℚ) →
    Option (List (return_type × AdmittanceController N_JNTS))
  | _, [] => some []
  | c, (inp, period) :: rest =>
    match update COMMANDING_ACTIVE c inp period with
    | none => none
    | some rc =>
      match run_updates COMMANDING_ACTIVE rc.2 rest with
      | none => none
      | some trace => some (rc :: trace)

/-! ## Concrete scenarios

A seven-joint arm and session code 4 for `COMMANDING_ACTIVE`, the values of the
KUKA LBR and of the FRI session enumeration. -/

/-- A solver whose forward kinematics reads the tip position off joints 0-2 and
roll, pitch, yaw off joints 3-5, and which answers every twist with zero joint
velocity. -/
def demo_solver : InvJacCtrlImpl 7 where
  compute_fk := fun q => { p := ![q 0, q 1, q 2], M := ⟨q 3, q 4, q 5⟩ }
  compute := fun _ _ _ => 0

/-- A controller as it is after construction and `on_init` with the declared
default parameters; `solver` is what `configure_inv_jac_ctrl_impl_` left behind. -/
def constructed_controller (solver : Option (InvJacCtrlImpl 7)) :
    AdmittanceController 7 where
  initialized_ := false
  admittance_impl_ptr_ := ⟨AdmittanceParameters.default⟩
  x_init_ := setZero
  x_prev_ := setZero
  f_ext_ := setZero
  x_ := setZero
  dx_ := setZero
  ddx_ := setZero
  inv_jac_ctrl_impl_ptr_ := solver
  q_ := fun _ => 0
  dq_ := fun _ => 0
  twist_command_ := setZero
  command_interfaces_ := fun _ => 0

/-- A cycle input with joint positions `q`, forces `f`, no torque, the session
state `session` and a sample time of 10 ms. -/
def input_at (q : jnt_array_t 7) (f : Vector3) (session : ℚ) : CycleInput 7 where
  forces := f
  torques := ![0, 0, 0]
  joint_position := q
  session_state := session
  sample_time := 1 / 100

/-- The controller after a first activation, one `update` at the joint positions
`q`, a deactivation and a second activation. -/
def reactivated_controller (q : jnt_array_t 7) : Option (AdmittanceController 7) :=
  match update 4 (on_activate (constructed_controller (some demo_solver)) true).2
      (input_at q ![0, 0, 0] 4) (1 / 1000) with
  | none => none
  | some rc => some (on_activate (on_deactivate rc.2).2 true).2

/-- The controller in the Tracking state: activated once and updated once at the
joint positions `q`. -/
def tracking_controller (q : jnt_array_t 7) : Option (AdmittanceController 7) :=
  match update 4 (on_activate (constructed_controller (some demo_solver)) true).2
      (input_at q ![0, 0, 0] 4) (1 / 1000) with
  | none => none
  | some rc => some rc.2

/-- A solver with the forward kinematics of `demo_solver` whose joint velocity is
the first component of the twist on every joint; it answers the zero twist with
zero joint velocity. -/
def echo_solver : InvJacCtrlImpl 7 where
  compute_fk := fun q => { p := ![q 0, q 1, q 2], M := ⟨q 3, q 4, q 5⟩ }
  compute := fun twist _ _ => twist 0

/-- The controller with `echo_solver` after a first activation, one `update` at
the joint positions `q`, a deactivation and a second activation. -/
def reactivated_echo_controller (q : jnt_array_t 7) : Option (AdmittanceController 7) :=
  match update 4 (on_activate (constructed_controller (some echo_solver)) true).2
      (input_at q ![0, 0, 0] 4) (1 / 1000) with
  | none => none
  | some rc => some (on_activate (on_deactivate rc.2).2 true).2

/-! ## Auxiliary facts about the vector operations and the stages of `update` -/

theorem static_cast_int_intCast (n : Int) : static_cast_int (n : ℚ) = n := by
  simp [static_cast_int]

theorem set_head3_idem (v : CartesianVector) (a : Vector3) :
    set_head3 (set_head3 v a) a = set_head3 v a := by
  funext i
  unfold set_head3
  split <;> rfl

theorem set_tail3_set_head3 (v w : CartesianVector) (a b : Vector3) :
    set_tail3 (set_head3 v a) b = set_tail3 (set_head3 w a) b := by
  funext i
  unfold set_tail3 set_head3
  by_cases h : CARTESIAN_DOF - 3 ≤ i.val
  · simp [h]
  · have h3 : i.val < 3 := by simp only [CARTESIAN_DOF] at h; omega
    simp [h, h3]

theorem wrench_zero (v : CartesianVector) :
    set_tail3 (set_head3 v setZero) setZero = setZero := by
  funext i
  unfold set_tail3 set_head3 setZero
  by_cases h : CARTESIAN_DOF - 3 ≤ i.val
  · simp [h]
  · have h3 : i.val < 3 := by simp only [CARTESIAN_DOF] at h; omega
    simp [h, h3]

theorem push_wrench (v : CartesianVector) :
    set_tail3 (set_head3 v ![5, 0, 0]) ![0, 0, 0] = ![5, 0, 0, 0, 0, 0] := by
  funext i
  fin_cases i <;> rfl

theorem vec_sub_self {n : Nat} (a : Fin n → ℚ) : vec_sub a a = setZero := by
  funext i
  simp [vec_sub, setZero]

theorem div_scalar_zero {n : Nat} (s : ℚ) : div_scalar (setZero : Fin n → ℚ) s = setZero := by
  funext i
  simp [div_scalar, setZero]

theorem mul_scalar_zero {n : Nat} (s : ℚ) : mul_scalar (setZero : Fin n → ℚ) s = setZero := by
  funext i
  simp [mul_scalar, setZero]

theorem update_of_solver {N_JNTS : Nat} (COMMANDING_ACTIVE : Int)
    (c : AdmittanceController N_JNTS) (inp : CycleInput N_JNTS) (period : ℚ)
    (solver : InvJacCtrlImpl N_JNTS) (hs : c.inv_jac_ctrl_impl_ptr_ = some solver) :
    update COMMANDING_ACTIVE c inp period =
      some (update_command COMMANDING_ACTIVE (update_until_twist solver c inp period)
        inp) := by
  simp [update, update_until_twist, update_measure, hs]

theorem update_displacement_of_solver {N_JNTS : Nat}
    (c : AdmittanceController N_JNTS) (inp : CycleInput N_JNTS) (period : ℚ)
    (solver : InvJacCtrlImpl N_JNTS) (hs : c.inv_jac_ctrl_impl_ptr_ = some solver) :
    update_displacement c inp period =
      some (displacement (update_kinematics solver (update_measure c inp) period)) := by
  simp [update_displacement, update_measure, hs]

theorem kinematics_solver {N_JNTS : Nat} (solver : InvJacCtrlImpl N_JNTS)
    (c : AdmittanceController N_JNTS) (period : ℚ) :
    (update_kinematics solver c period).inv_jac_ctrl_impl_ptr_ =
      c.inv_jac_ctrl_impl_ptr_ := by
  unfold update_kinematics
  cases h : c.initialized_ <;> simp [h]

theorem kinematics_impl {N_JNTS : Nat} (solver : InvJacCtrlImpl N_JNTS)
    (c : AdmittanceController N_JNTS) (period : ℚ) :
    (update_kinematics solver c period).admittance_impl_ptr_ = c.admittance_impl_ptr_ := by
  unfold update_kinematics
  cases h : c.initialized_ <;> simp [h]

theorem kinematics_command {N_JNTS : Nat} (solver : InvJacCtrlImpl N_JNTS)
    (c : AdmittanceController N_JNTS) (period : ℚ) :
    (update_kinematics solver c period).command_interfaces_ = c.command_interfaces_ := by
  unfold update_kinematics
  cases h : c.initialized_ <;> simp [h]

theorem kinematics_q {N_JNTS : Nat} (solver : InvJacCtrlImpl N_JNTS)
    (c : AdmittanceController N_JNTS) (period : ℚ) :
    (update_kinematics solver c period).q_ = c.q_ := by
  unfold update_kinematics
  cases h : c.initialized_ <;> simp [h]

theorem kinematics_f_ext {N_JNTS : Nat} (solver : InvJacCtrlImpl N_JNTS)
    (c : AdmittanceController N_JNTS) (period : ℚ) :
    (update_kinematics solver c period).f_ext_ = c.f_ext_ := by
  unfold update_kinematics
  cases h : c.initialized_ <;> simp [h]

theorem kinematics_ddx {N_JNTS : Nat} (solver : InvJacCtrlImpl N_JNTS)
    (c : AdmittanceController N_JNTS) (period : ℚ) :
    (update_kinematics solver c period).ddx_ = c.ddx_ := by
  unfold update_kinematics
  cases h : c.initialized_ <;> simp [h]

theorem kinematics_x {N_JNTS : Nat} (solver : InvJacCtrlImpl N_JNTS)
    (c : AdmittanceController N_JNTS) (period : ℚ) :
    (update_kinematics solver c period).x_ = set_head3 c.x_ (solver.compute_fk c.q_).p := by
  unfold update_kinematics
  cases h : c.initialized_ <;> simp [h]

theorem kinematics_initialized {N_JNTS : Nat} (solver : InvJacCtrlImpl N_JNTS)
    (c : AdmittanceController N_JNTS) (period : ℚ) :
    (update_kinematics solver c period).initialized_ = true := by
  unfold update_kinematics
  cases h : c.initialized_ <;> simp [h]

theorem kinematics_x_prev {N_JNTS : Nat} (solver : InvJacCtrlImpl N_JNTS)
    (c : AdmittanceController N_JNTS) (period : ℚ) :
    (update_kinematics solver c period).x_prev_ =
      if c.initialized_ then c.x_prev_ else set_head3 c.x_ (solver.compute_fk c.q_).p := by
  unfold update_kinematics
  cases h : c.initialized_ <;> simp [h]

theorem kinematics_x_init {N_JNTS : Nat} (solver : InvJacCtrlImpl N_JNTS)
    (c : AdmittanceController N_JNTS) (period : ℚ) :
    (update_kinematics solver c period).x_init_ =
      if c.initialized_ then set_rpy c.x_init_ (solver.compute_fk c.q_).M
      else set_head3 c.x_ (solver.compute_fk c.q_).p := by
  unfold update_kinematics
  cases h : c.initialized_ <;> simp [h]

theorem kinematics_dx {N_JNTS : Nat} (solver : InvJacCtrlImpl N_JNTS)
    (c : AdmittanceController N_JNTS) (period : ℚ) :
    (update_kinematics solver c period).dx_ =
      div_scalar (vec_sub (update_kinematics solver c period).x_
        (update_kinematics solver c period).x_prev_) period := by
  unfold update_kinematics
  cases h : c.initialized_ <;> simp [h]

theorem command_of_gate {N_JNTS : Nat} (COMMANDING_ACTIVE : Int)
    (c : AdmittanceController N_JNTS) (inp : CycleInput N_JNTS)
    (solver : InvJacCtrlImpl N_JNTS) (hs : c.inv_jac_ctrl_impl_ptr_ = some solver)
    (hg : static_cast_int inp.session_state ≠ COMMANDING_ACTIVE) :
    update_command COMMANDING_ACTIVE c inp = (return_type.OK, c) := by
  simp [update_command, hs, hg]

theorem command_of_active {N_JNTS : Nat} (COMMANDING_ACTIVE : Int)
    (c : AdmittanceController N_JNTS) (inp : CycleInput N_JNTS)
    (solver : InvJacCtrlImpl N_JNTS) (hs : c.inv_jac_ctrl_impl_ptr_ = some solver)
    (ha : static_cast_int inp.session_state = COMMANDING_ACTIVE) :
    update_command COMMANDING_ACTIVE c inp =
      (return_type.OK,
        { c with
          dq_ := solver.compute c.twist_command_ c.q_
          command_interfaces_ := fun i =>
            c.q_ i + solver.compute c.twist_command_ c.q_ i * inp.sample_time }) := by
  simp [update_command, hs, ha]

/-- The controller that `update` leaves behind when the solver is present agrees
with the state after line 98 on every field but `dq_` and the command. -/
theorem command_frame {N_JNTS : Nat} (COMMANDING_ACTIVE : Int)
    (c : AdmittanceController N_JNTS) (inp : CycleInput N_JNTS) :
    (update_command COMMANDING_ACTIVE c inp).2.x_ = c.x_ ∧
    (update_command COMMANDING_ACTIVE c inp).2.x_prev_ = c.x_prev_ ∧
    (update_command COMMANDING_ACTIVE c inp).2.x_init_ = c.x_init_ ∧
    (update_command COMMANDING_ACTIVE c inp).2.dx_ = c.dx_ ∧
    (update_command COMMANDING_ACTIVE c inp).2.ddx_ = c.ddx_ ∧
    (update_command COMMANDING_ACTIVE c inp).2.f_ext_ = c.f_ext_ ∧
    (update_command COMMANDING_ACTIVE c inp).2.twist_command_ = c.twist_command_ ∧
    (update_command COMMANDING_ACTIVE c inp).2.initialized_ = c.initialized_ ∧
    (update_command COMMANDING_ACTIVE c inp).2.admittance_impl_ptr_ =
      c.admittance_impl_ptr_ ∧
    (update_command COMMANDING_ACTIVE c inp).2.inv_jac_ctrl_impl_ptr_ =
      c.inv_jac_ctrl_impl_ptr_ ∧
    (update_command COMMANDING_ACTIVE c inp).2.q_ = c.q_ := by
  unfold update_command
  cases hs : c.inv_jac_ctrl_impl_ptr_ with
  | none => simp [hs]
  | some solver =>
    by_cases hg : static_cast_int inp.session_state = COMMANDING_ACTIVE
    · simp [hg, hs]
    · simp [hg, hs]

/-- The fields of the controller after line 98, in terms of the controller and
the input the cycle started from. -/
theorem state_after_twist {N_JNTS : Nat} (solver : InvJacCtrlImpl N_JNTS)
    (c : AdmittanceController N_JNTS) (inp : CycleInput N_JNTS) (period : ℚ) :
    (update_until_twist solver c inp period).inv_jac_ctrl_impl_ptr_ = c.inv_jac_ctrl_impl_ptr_ ∧
    (update_until_twist solver c inp period).admittance_impl_ptr_ = c.admittance_impl_ptr_ ∧
    (update_until_twist solver c inp period).initialized_ = true ∧
    (update_until_twist solver c inp period).q_ = inp.joint_position ∧
    (update_until_twist solver c inp period).command_interfaces_ = c.command_interfaces_ ∧
    (update_until_twist solver c inp period).f_ext_ = set_tail3 (set_head3 c.f_ext_ inp.forces) inp.torques ∧
    (update_until_twist solver c inp period).x_ = set_head3 c.x_ (solver.compute_fk inp.joint_position).p ∧
    (update_until_twist solver c inp period).x_prev_ = (update_until_twist solver c inp period).x_ ∧
    (update_until_twist solver c inp period).x_init_ = (if c.initialized_
      then set_rpy c.x_init_ (solver.compute_fk inp.joint_position).M else (update_until_twist solver c inp period).x_) ∧
    (update_until_twist solver c inp period).dx_ = div_scalar (vec_sub (update_until_twist solver c inp period).x_ (if c.initialized_ then c.x_prev_ else (update_until_twist solver c inp period).x_)) period ∧
    (update_until_twist solver c inp period).ddx_ = (c.admittance_impl_ptr_.compute (update_until_twist solver c inp period).f_ext_ (vec_sub (update_until_twist solver c inp period).x_ (update_until_twist solver c inp period).x_init_) (update_until_twist solver c inp period).dx_
      c.ddx_).2 ∧
    (update_until_twist solver c inp period).twist_command_ = mul_scalar (update_until_twist solver c inp period).ddx_ period := by
  refine ⟨?_, ?_, ?_, ?_, ?_, ?_, ?_, ?_, ?_, ?_, ?_, ?_⟩
  · show (update_kinematics solver (update_measure c inp) period).inv_jac_ctrl_impl_ptr_ = _
    rw [kinematics_solver]; rfl
  · show (update_kinematics solver (update_measure c inp) period).admittance_impl_ptr_ = _
    rw [kinematics_impl]; rfl
  · show (update_kinematics solver (update_measure c inp) period).initialized_ = _
    rw [kinematics_initialized]
  · show (update_kinematics solver (update_measure c inp) period).q_ = _
    rw [kinematics_q]; rfl
  · show (update_kinematics solver (update_measure c inp) period).command_interfaces_ = _
    rw [kinematics_command]; rfl
  · show (update_kinematics solver (update_measure c inp) period).f_ext_ = _
    rw [kinematics_f_ext]; rfl
  · show (update_kinematics solver (update_measure c inp) period).x_ = _
    rw [kinematics_x]; rfl
  · rfl
  · show (update_kinematics solver (update_measure c inp) period).x_init_ =
      if c.initialized_ then _
      else (update_kinematics solver (update_measure c inp) period).x_
    rw [kinematics_x_init, kinematics_x]; rfl
  · show (update_kinematics solver (update_measure c inp) period).dx_ =
      div_scalar (vec_sub (update_kinematics solver (update_measure c inp) period).x_
        (if c.initialized_ then c.x_prev_
          else (update_kinematics solver (update_measure c inp) period).x_)) period
    rw [kinematics_dx, kinematics_x_prev, kinematics_x]; rfl
  · show ((update_kinematics solver (update_measure c inp) period).admittance_impl_ptr_.compute
        (update_kinematics solver (update_measure c inp) period).f_ext_
        (displacement (update_kinematics solver (update_measure c inp) period))
        (update_kinematics solver (update_measure c inp) period).dx_
        (update_kinematics solver (update_measure c inp) period).ddx_).2 = _
    rw [kinematics_impl, kinematics_ddx]
    rfl
  · rfl

/-- On a cycle that starts with `initialized_` false, the displacement handed to
the admittance law and the velocity are both zero. -/
theorem capture_cycle_zero {N_JNTS : Nat} (solver : InvJacCtrlImpl N_JNTS)
    (c : AdmittanceController N_JNTS) (inp : CycleInput N_JNTS) (period : ℚ)
    (hi : c.initialized_ = false) :
    displacement (update_kinematics solver (update_measure c inp) period) = setZero ∧
    (update_until_twist solver c inp period).dx_ = setZero := by
  obtain ⟨-, -, -, -, -, -, -, -, a9, a10, -, -⟩ := state_after_twist solver c inp period
  rw [hi] at a9 a10
  simp only [Bool.false_eq_true, if_false] at a9 a10
  constructor
  · show vec_sub (update_until_twist solver c inp period).x_
      (update_until_twist solver c inp period).x_init_ = _
    rw [a9, vec_sub_self]
  · rw [a10, vec_sub_self, div_scalar_zero]

/-- One cycle of the steady-state hold: from a controller whose previous pose, if
captured, is the pose at `q0`, a cycle with zero wrench at `q0` and an active
session keeps that property, has zero velocity and zero target twist, and
commands `q0`. -/
theorem hold_cycle {N_JNTS : Nat} (COMMANDING_ACTIVE : Int)
    (solver : InvJacCtrlImpl N_JNTS) (q0 : jnt_array_t N_JNTS)
    (c : AdmittanceController N_JNTS) (inp : CycleInput N_JNTS) (period : ℚ)
    (hs : c.inv_jac_ctrl_impl_ptr_ = some solver)
    (hk : c.admittance_impl_ptr_.parameters_.k = 0)
    (hx : c.initialized_ = true → c.x_prev_ = set_head3 c.x_ (solver.compute_fk q0).p)
    (hzero : ∀ q, solver.compute setZero q = fun _ => 0)
    (hf : inp.forces = setZero) (ht : inp.torques = setZero)
    (hq : inp.joint_position = q0)
    (ha : static_cast_int inp.session_state = COMMANDING_ACTIVE) :
    ∃ c1, update COMMANDING_ACTIVE c inp period = some (return_type.OK, c1) ∧
      c1.inv_jac_ctrl_impl_ptr_ = some solver ∧
      c1.admittance_impl_ptr_ = c.admittance_impl_ptr_ ∧
      (c1.initialized_ = true → c1.x_prev_ = set_head3 c1.x_ (solver.compute_fk q0).p) ∧
      c1.dx_ = setZero ∧ c1.twist_command_ = setZero ∧ c1.command_interfaces_ = q0 := by
  obtain ⟨a1, a2, -, a4, -, a6, a7, a8, -, a10, a11, a12⟩ :=
    state_after_twist solver c inp period
  rw [hq] at a7 a4
  have hdx : (update_until_twist solver c inp period).dx_ = setZero := by
    rw [a10]
    cases hi : c.initialized_ with
    | false => simp [vec_sub_self, div_scalar_zero]
    | true =>
      simp only [if_true]
      rw [hx hi, a7, vec_sub_self, div_scalar_zero]
  have hfe : (update_until_twist solver c inp period).f_ext_ = setZero := by
    rw [a6, hf, ht, wrench_zero]
  have hddx : (update_until_twist solver c inp period).ddx_ = setZero := by
    rw [a11, hfe, hdx]
    funext i
    simp [AdmittanceImpl.compute, div_scalar, vec_sub, scalar_mul, setZero, hk]
  have htw : (update_until_twist solver c inp period).twist_command_ = setZero := by
    rw [a12, hddx, mul_scalar_zero]
  rw [update_of_solver COMMANDING_ACTIVE c inp period solver hs]
  rw [command_of_active COMMANDING_ACTIVE _ inp solver (a1.trans hs) ha]
  refine ⟨_, rfl, a1.trans hs, a2, ?_, hdx, htw, ?_⟩
  · intro _
    show (update_until_twist solver c inp period).x_prev_ =
      set_head3 (update_until_twist solver c inp period).x_ _
    rw [a8, a7, set_head3_idem]
  · funext i
    show (update_until_twist solver c inp period).q_ i +
      solver.compute (update_until_twist solver c inp period).twist_command_
        (update_until_twist solver c inp period).q_ i * inp.sample_time = q0 i
    rw [htw, hzero, a4]
    simp

/-- The steady-state hold over a run of cycles, from any controller that
satisfies the hypotheses of `hold_cycle`. -/
theorem hold_run {N_JNTS : Nat} (COMMANDING_ACTIVE : Int)
    (solver : InvJacCtrlImpl N_JNTS) (q0 : jnt_array_t N_JNTS)
    (hzero : ∀ q, solver.compute setZero q = fun _ => 0)
    (cycles : List (CycleInput N_JNTS × ℚ)) :
    ∀ c : AdmittanceController N_JNTS,
      c.inv_jac_ctrl_impl_ptr_ = some solver →
      c.admittance_impl_ptr_.parameters_.k = 0 →
      (c.initialized_ = true → c.x_prev_ = set_head3 c.x_ (solver.compute_fk q0).p) →
      (∀ cyc ∈ cycles, cyc.1.forces = setZero ∧ cyc.1.torques = setZero ∧
        cyc.1.joint_position = q0 ∧
        static_cast_int cyc.1.session_state = COMMANDING_ACTIVE) →
      ∃ trace, run_updates COMMANDING_ACTIVE c cycles = some trace ∧
        trace.length = cycles.length ∧
        ∀ rc ∈ trace, rc.1 = return_type.OK ∧ rc.2.dx_ = setZero ∧
          rc.2.twist_command_ = setZero ∧ rc.2.command_interfaces_ = q0 := by
  induction cycles with
  | nil =>
    intro c _ _ _ _
    exact ⟨[], rfl, rfl, by simp⟩
  | cons cyc rest ih =>
    intro c hs hk hx hcyc
    obtain ⟨hf, ht, hq, ha⟩ := hcyc cyc (List.mem_cons_self _ _)
    obtain ⟨c1, hu, hs1, himpl, hx1, hdx, htw, hcmd⟩ :=
      hold_cycle COMMANDING_ACTIVE solver q0 c cyc.1 cyc.2 hs hk hx hzero hf ht hq ha
    obtain ⟨trace, hrun, hlen, hall⟩ := ih c1 hs1 (by rw [himpl]; exact hk) hx1
      (fun d hd => hcyc d (List.mem_cons_of_mem _ hd))
    refine ⟨(return_type.OK, c1) :: trace, ?_, ?_, ?_⟩
    · show (match update COMMANDING_ACTIVE c cyc.1 cyc.2 with
        | none => none
        | some rc =>
          match run_updates COMMANDING_ACTIVE rc.2 rest with
          | none => none
          | some trace => some (rc :: trace)) = _
      rw [hu]
      simp only []
      rw [hrun]
    · simp [hlen]
    · intro rc hrc
      rcases List.mem_cons.mp hrc with h | h
      · subst h
        exact ⟨rfl, hdx, htw, hcmd⟩
      · exact hall rc h

theorem reactivated_echo_controller_eq (q : jnt_array_t 7) :
    reactivated_echo_controller q = some (zero_all_values_ (update_command 4
      (update_until_twist echo_solver (zero_all_values_ (constructed_controller (some echo_solver)))
        (input_at q ![0, 0, 0] 4) (1 / 1000)) (input_at q ![0, 0, 0] 4)).2) := by
  unfold reactivated_echo_controller
  rw [update_of_solver 4 _ _ _ echo_solver rfl]
  rfl

theorem reactivated_controller_eq (q : jnt_array_t 7) :
    reactivated_controller q = some (zero_all_values_ (update_command 4
      (update_until_twist demo_solver (zero_all_values_ (constructed_controller (some demo_solver)))
        (input_at q ![0, 0, 0] 4) (1 / 1000)) (input_at q ![0, 0, 0] 4)).2) := by
  unfold reactivated_controller
  rw [update_of_solver 4 _ _ _ demo_solver rfl]
  rfl

theorem tracking_controller_eq (q : jnt_array_t 7) :
    tracking_controller q = some (update_command 4
      (update_until_twist demo_solver (zero_all_values_ (constructed_controller (some demo_solver)))
        (input_at q ![0, 0, 0] 4) (1 / 1000)) (input_at q ![0, 0, 0] 4)).2 := by
  unfold tracking_controller
  rw [update_of_solver 4 _ _ _ demo_solver rfl]
  rfl

/-! ## The claims -/

/-- C1: for a positive mass, `AdmittanceImpl::compute` leaves
`(f_ext - b * dx - k * x) / m` in every component of `ddx` and leaves the object,
hence its parameters, as it was; the three inputs are values and cannot change. -/
theorem compute_spec (self : AdmittanceImpl) (f_ext x dx ddx : CartesianVector)
    (_hm : 0 < self.parameters_.m) :
    (∀ i, (self.compute f_ext x dx ddx).2 i =
        (f_ext i - self.parameters_.b * dx i - self.parameters_.k * x i) /
          self.parameters_.m) ∧
    (self.compute f_ext x dx ddx).1 = self := by
  constructor
  · intro i
    rfl
  · rfl

theorem compute_spec_witness :
    (∀ i, ((AdmittanceImpl.mk AdmittanceParameters.default).compute
        ![5, 0, 0, 0, 0, 0] setZero setZero setZero).2 i =
      ((![5, 0, 0, 0, 0, 0] : CartesianVector) i -
          AdmittanceParameters.default.b * (setZero : CartesianVector) i -
          AdmittanceParameters.default.k * (setZero : CartesianVector) i) /
        AdmittanceParameters.default.m) ∧
    ((AdmittanceImpl.mk AdmittanceParameters.default).compute
        ![5, 0, 0, 0, 0, 0] setZero setZero setZero).1 =
      AdmittanceImpl.mk AdmittanceParameters.default :=
  compute_spec (AdmittanceImpl.mk AdmittanceParameters.default) ![5, 0, 0, 0, 0, 0]
    setZero setZero setZero (by norm_num [AdmittanceParameters.default])

/-- C2 (failing input): a controller is activated, updated once with the arm at
the origin, deactivated and activated again. In the first `update` after the
second activation, with joint 0 moved to 1, the displacement handed to the
admittance law has first component 1 and the velocity has first component 1000:
neither is 0, the poses of the first activation are still in `x_init_` and
`x_prev_`. -/
theorem reactivation_keeps_stale_poses :
    ((reactivated_controller (fun _ => 0)).bind fun c =>
        update_displacement c (input_at ![1, 0, 0, 0, 0, 0, 0] ![0, 0, 0] 4) (1 / 1000)).map
      (fun d => d 0) = some 1 ∧
    ((reactivated_controller (fun _ => 0)).bind fun c =>
        update 4 c (input_at ![1, 0, 0, 0, 0, 0, 0] ![0, 0, 0] 4) (1 / 1000)).map
      (fun rc => rc.2.dx_ 0) = some 1000 ∧
    (reactivated_controller (fun _ => 0)).map (fun c => c.initialized_) = some true := by
  rw [reactivated_controller_eq]
  have h4 : static_cast_int 4 = 4 := by
    have h := static_cast_int_intCast 4
    norm_num at h
    exact h
  simp [update_displacement, update, update_measure, update_kinematics, update_until_twist,
    update_admittance, update_command, zero_all_values_, constructed_controller, demo_solver,
    input_at, displacement, vec_sub, div_scalar, set_head3, set_rpy, setZero, h4]

/-- C3: with the solver present and a session state whose integer cast differs
from `COMMANDING_ACTIVE`, `update` returns `OK` and every entry of the joint
position command buffer is what it was before the call. -/
theorem update_gated_keeps_command {N_JNTS : Nat} (COMMANDING_ACTIVE : Int)
    (c : AdmittanceController N_JNTS) (inp : CycleInput N_JNTS) (period : ℚ)
    (solver : InvJacCtrlImpl N_JNTS) (hs : c.inv_jac_ctrl_impl_ptr_ = some solver)
    (hg : static_cast_int inp.session_state ≠ COMMANDING_ACTIVE) :
    ∃ c1, update COMMANDING_ACTIVE c inp period = some (return_type.OK, c1) ∧
      ∀ i, c1.command_interfaces_ i = c.command_interfaces_ i := by
  refine ⟨update_until_twist solver c inp period, ?_, ?_⟩
  · rw [update_of_solver COMMANDING_ACTIVE c inp period solver hs]
    rw [command_of_gate COMMANDING_ACTIVE _ inp solver _ hg]
    show (update_kinematics solver (update_measure c inp) period).inv_jac_ctrl_impl_ptr_ = _
    rw [kinematics_solver]
    exact hs
  · intro i
    show (update_kinematics solver (update_measure c inp) period).command_interfaces_ i = _
    rw [kinematics_command]
    rfl

theorem update_gated_keeps_command_witness :
    ∃ c1, update 4 (constructed_controller (some demo_solver))
        (input_at ![1, 0, 0, 0, 0, 0, 0] ![5, 0, 0] 3) (1 / 1000) =
          some (return_type.OK, c1) ∧
      ∀ i, c1.command_interfaces_ i =
        (constructed_controller (some demo_solver)).command_interfaces_ i :=
  update_gated_keeps_command 4 (constructed_controller (some demo_solver))
    (input_at ![1, 0, 0, 0, 0, 0, 0] ![5, 0, 0] 3) (1 / 1000) demo_solver rfl
    (by
      have h := static_cast_int_intCast 3
      simp only [input_at]
      norm_num at h ⊢
      rw [h]
      decide)

/-- C4: with the solver present and the session state `COMMANDING_ACTIVE`,
`update` returns `OK`, `q_` holds the joint positions measured in this cycle,
`dq_` is the solver output for this cycle's target twist and `q_`, and every
command entry is `q[i] + dq[i] * sample_time`, the sample time being the input of
that name and not `period`. -/
theorem update_active_writes_command {N_JNTS : Nat} (COMMANDING_ACTIVE : Int)
    (c : AdmittanceController N_JNTS) (inp : CycleInput N_JNTS) (period : ℚ)
    (solver : InvJacCtrlImpl N_JNTS) (hs : c.inv_jac_ctrl_impl_ptr_ = some solver)
    (ha : static_cast_int inp.session_state = COMMANDING_ACTIVE) :
    ∃ c1, update COMMANDING_ACTIVE c inp period = some (return_type.OK, c1) ∧
      c1.q_ = inp.joint_position ∧
      c1.dq_ = solver.compute c1.twist_command_ inp.joint_position ∧
      ∀ i, c1.command_interfaces_ i =
        inp.joint_position i + c1.dq_ i * inp.sample_time := by
  obtain ⟨h1, -, -, h4, -⟩ := state_after_twist solver c inp period
  rw [update_of_solver COMMANDING_ACTIVE c inp period solver hs]
  rw [command_of_active COMMANDING_ACTIVE _ inp solver (h1.trans hs) ha]
  refine ⟨_, rfl, ?_, ?_, ?_⟩
  · exact h4
  · show solver.compute _ _ = solver.compute _ _
    rw [h4]
  · intro i
    show _ + _ = _ + _
    rw [h4]

theorem update_active_writes_command_witness :
    ∃ c1, update 4 (constructed_controller (some demo_solver))
        (input_at ![1, 0, 0, 0, 0, 0, 0] ![5, 0, 0] 4) (1 / 1000) =
          some (return_type.OK, c1) ∧
      c1.q_ = (input_at ![1, 0, 0, 0, 0, 0, 0] ![5, 0, 0] 4).joint_position ∧
      c1.dq_ = demo_solver.compute c1.twist_command_
        (input_at ![1, 0, 0, 0, 0, 0, 0] ![5, 0, 0] 4).joint_position ∧
      ∀ i, c1.command_interfaces_ i =
        (input_at ![1, 0, 0, 0, 0, 0, 0] ![5, 0, 0] 4).joint_position i +
          c1.dq_ i * (input_at ![1, 0, 0, 0, 0, 0, 0] ![5, 0, 0] 4).sample_time :=
  update_active_writes_command 4 (constructed_controller (some demo_solver))
    (input_at ![1, 0, 0, 0, 0, 0, 0] ![5, 0, 0] 4) (1 / 1000) demo_solver rfl
    (by
      have h := static_cast_int_intCast 4
      simp only [input_at]
      norm_num at h ⊢
      exact h)

/-- C5 (failing input): a controller in the Tracking state, reached by one
activation and one `update` with joint 3 (the roll of the tip) at 1, holds 0 in
component 3 of `x_init_`. One more `update` at the very same joint positions
leaves 1 there: line 79 hands `x_init_[3..5]` to `GetRPY` in every cycle. -/
theorem tracking_update_overwrites_reference :
    (tracking_controller ![0, 0, 0, 1, 0, 0, 0]).map (fun c => (c.initialized_, c.x_init_ 3)) =
      some (true, 0) ∧
    ((tracking_controller ![0, 0, 0, 1, 0, 0, 0]).bind fun c =>
        update 4 c (input_at ![0, 0, 0, 1, 0, 0, 0] ![0, 0, 0] 4) (1 / 1000)).map
      (fun rc => rc.2.x_init_ 3) = some 1 := by
  rw [tracking_controller_eq]
  have h4 : static_cast_int 4 = 4 := by
    have h := static_cast_int_intCast 4
    norm_num at h
    exact h
  have h3 : ((3 : Fin CARTESIAN_DOF) : Nat) = 3 := rfl
  simp [h3, update, update_measure, update_kinematics, update_until_twist,
    update_admittance, update_command, zero_all_values_, constructed_controller, demo_solver,
    input_at, set_head3, set_rpy, setZero, h4]

/-- C6 (failing input): with `inv_jac_ctrl_impl_ptr_` null, `update` has no
defined result, whatever the cycle input; in particular it does not return
`ERROR`. Line 77 dereferences the pointer before line 100 checks it. -/
theorem update_without_solver_undefined (COMMANDING_ACTIVE : Int) (inp : CycleInput 7)
    (period : ℚ) :
    update COMMANDING_ACTIVE (constructed_controller none) inp period = none ∧
    ∀ c1, update COMMANDING_ACTIVE (constructed_controller none) inp period ≠
      some (return_type.ERROR, c1) := by
  have h : update COMMANDING_ACTIVE (constructed_controller none) inp period = none := rfl
  refine ⟨h, ?_⟩
  intro c1
  rw [h]
  exact Option.noConfusion

/-- Steady-state hold on a first activation only: when `initialized_` is still
false before `on_activate`, with stiffness 0, positive mass, a solver that answers
the zero twist with zero joint velocity, and any run of cycles with positive
period, zero wrench, joint positions `q0` and session state `COMMANDING_ACTIVE`,
every cycle returns `OK`, has velocity 0 and target twist 0, and writes the
command `q0`. The hypothesis on `initialized_` cannot be dropped: `on_activate`
does not reset the flag. -/
theorem first_activation_hold {N_JNTS : Nat} (COMMANDING_ACTIVE : Int)
    (c0 : AdmittanceController N_JNTS) (solver : InvJacCtrlImpl N_JNTS)
    (q0 : jnt_array_t N_JNTS) (cycles : List (CycleInput N_JNTS × ℚ))
    (hfresh : c0.initialized_ = false)
    (hs : c0.inv_jac_ctrl_impl_ptr_ = some solver)
    (hk : c0.admittance_impl_ptr_.parameters_.k = 0)
    (_hm : 0 < c0.admittance_impl_ptr_.parameters_.m)
    (hzero : ∀ q, solver.compute setZero q = fun _ => 0)
    (hcyc : ∀ cyc ∈ cycles, 0 < cyc.2 ∧ cyc.1.forces = setZero ∧
      cyc.1.torques = setZero ∧ cyc.1.joint_position = q0 ∧
      static_cast_int cyc.1.session_state = COMMANDING_ACTIVE) :
    (on_activate c0 true).1 = CallbackReturn.SUCCESS ∧
    ∃ trace, run_updates COMMANDING_ACTIVE (on_activate c0 true).2 cycles = some trace ∧
      trace.length = cycles.length ∧
      ∀ rc ∈ trace, rc.1 = return_type.OK ∧ rc.2.dx_ = setZero ∧
        rc.2.twist_command_ = setZero ∧ rc.2.command_interfaces_ = q0 := by
  refine ⟨rfl, ?_⟩
  apply hold_run COMMANDING_ACTIVE solver q0 hzero cycles (on_activate c0 true).2
  · exact hs
  · exact hk
  · intro h
    have h0 : (on_activate c0 true).2.initialized_ = c0.initialized_ := rfl
    rw [h0, hfresh] at h
    exact absurd h (by decide)
  · intro cyc hc
    exact (hcyc cyc hc).2

theorem first_activation_hold_witness :
    (on_activate (constructed_controller (some demo_solver)) true).1 =
      CallbackReturn.SUCCESS ∧
    ∃ trace, run_updates 4 (on_activate (constructed_controller (some demo_solver)) true).2
        (List.replicate 3 (input_at ![1, 0, 0, 2, 0, 0, 0] setZero 4, 1 / 1000)) =
          some trace ∧
      trace.length =
        (List.replicate 3 (input_at ![1, 0, 0, 2, 0, 0, 0] setZero 4, (1 / 1000 : ℚ))).length ∧
      ∀ rc ∈ trace, rc.1 = return_type.OK ∧ rc.2.dx_ = setZero ∧
        rc.2.twist_command_ = setZero ∧ rc.2.command_interfaces_ = ![1, 0, 0, 2, 0, 0, 0] :=
  first_activation_hold 4 (constructed_controller (some demo_solver)) demo_solver
    ![1, 0, 0, 2, 0, 0, 0]
    (List.replicate 3 (input_at ![1, 0, 0, 2, 0, 0, 0] setZero 4, 1 / 1000)) rfl rfl rfl
    (by norm_num [constructed_controller, AdmittanceParameters.default])
    (fun _ => rfl)
    (by
      intro cyc hc
      rw [List.eq_of_mem_replicate hc]
      refine ⟨by norm_num, rfl, ?_, rfl, ?_⟩
      · funext i
        fin_cases i <;> rfl
      · have h := static_cast_int_intCast 4
        simp only [input_at]
        norm_num at h ⊢
        exact h)

/-- C7 (failing input): a controller with stiffness 0, mass 1 and a solver that
answers the zero twist with zero joint velocity is activated, updated once with
the arm at the origin, deactivated, and activated again with the arm at
`q0 = (1, 0, 0, 0, 0, 0, 0)`. Three hold cycles follow: zero wrench, joint
positions `q0`, session state `COMMANDING_ACTIVE`, period 1 ms. Every call returns
`OK`, but in the first cycle the velocity has first component 1000, the target
twist -1/10 and the command for joint 0 is 999/1000 instead of 1; only from the
second cycle on does the hold take effect. The previous pose of the first
activation is still in `x_prev_`. -/
theorem reactivated_hold_drifts :
    (∀ q, echo_solver.compute setZero q = fun _ => 0) ∧
    (reactivated_echo_controller (fun _ => 0)).map
      (fun c => (c.admittance_impl_ptr_.parameters_.k, c.admittance_impl_ptr_.parameters_.m)) =
        some (0, 1) ∧
    ((reactivated_echo_controller (fun _ => 0)).bind fun c =>
        run_updates 4 c
          (List.replicate 3 (input_at ![1, 0, 0, 0, 0, 0, 0] ![0, 0, 0] 4, 1 / 1000))).map
      (fun trace => trace.map fun rc =>
        (rc.1, rc.2.dx_ 0, rc.2.twist_command_ 0, rc.2.command_interfaces_ 0)) =
      some [(return_type.OK, 1000, -1 / 10, 999 / 1000), (return_type.OK, 0, 0, 1),
        (return_type.OK, 0, 0, 1)] := by
  have h4 : static_cast_int 4 = 4 := by
    have h := static_cast_int_intCast 4
    norm_num at h
    exact h
  refine ⟨fun _ => rfl, ?_, ?_⟩
  · rw [reactivated_echo_controller_eq]
    rfl
  · rw [reactivated_echo_controller_eq]
    simp [List.replicate, run_updates, update, update_measure, update_kinematics,
      update_until_twist, update_admittance, update_command, zero_all_values_,
      constructed_controller, echo_solver, input_at, displacement, vec_sub, div_scalar,
      mul_scalar, scalar_mul, set_head3, set_tail3, set_rpy, setZero,
      AdmittanceImpl.compute, AdmittanceParameters.default, h4]
    norm_num

/-- C8: with the solver present, the target twist that `update` leaves in
`twist_command_` is, in each component, the output of `AdmittanceImpl::compute`
for this cycle's wrench, displacement and velocity, times the period. In
particular for m = 1, b = 0.1, k = 0, wrench (5, 0, 0, 0, 0, 0), zero displacement
and zero velocity and a period of 0.001 the acceleration is (5, 0, 0, 0, 0, 0) and
the target twist (0.005, 0, 0, 0, 0, 0). -/
theorem update_target_twist {N_JNTS : Nat} (COMMANDING_ACTIVE : Int)
    (c : AdmittanceController N_JNTS) (inp : CycleInput N_JNTS) (period : ℚ)
    (solver : InvJacCtrlImpl N_JNTS) (hs : c.inv_jac_ctrl_impl_ptr_ = some solver) :
    ∃ r c1 d,
      update COMMANDING_ACTIVE c inp period = some (r, c1) ∧
      update_displacement c inp period = some d ∧
      c1.f_ext_ = set_tail3 (set_head3 setZero inp.forces) inp.torques ∧
      c1.ddx_ = (c.admittance_impl_ptr_.compute c1.f_ext_ d c1.dx_ c.ddx_).2 ∧
      (∀ i, c1.twist_command_ i =
        (c.admittance_impl_ptr_.compute c1.f_ext_ d c1.dx_ c.ddx_).2 i * period) ∧
      (c.admittance_impl_ptr_.parameters_.m = 1 →
        c.admittance_impl_ptr_.parameters_.b = 1 / 10 →
        c.admittance_impl_ptr_.parameters_.k = 0 →
        inp.forces = ![5, 0, 0] → inp.torques = ![0, 0, 0] →
        d = setZero → c1.dx_ = setZero → period = 1 / 1000 →
        c1.ddx_ = ![5, 0, 0, 0, 0, 0] ∧ c1.twist_command_ = ![1 / 200, 0, 0, 0, 0, 0]) := by
  obtain ⟨-, -, -, -, -, a6, -, -, -, -, a11, a12⟩ := state_after_twist solver c inp period
  obtain ⟨-, -, -, f4, f5, f6, f7, -, -, -, -⟩ := command_frame COMMANDING_ACTIVE
    (update_until_twist solver c inp period) inp
  have hddx : (update_command COMMANDING_ACTIVE (update_until_twist solver c inp period)
      inp).2.ddx_ = (c.admittance_impl_ptr_.compute
        (update_command COMMANDING_ACTIVE (update_until_twist solver c inp period) inp).2.f_ext_
        (displacement (update_kinematics solver (update_measure c inp) period))
        (update_command COMMANDING_ACTIVE (update_until_twist solver c inp period) inp).2.dx_
        c.ddx_).2 := by
    rw [f5, f6, f4, a11]
    rfl
  have htw : ∀ i, (update_command COMMANDING_ACTIVE (update_until_twist solver c inp period)
      inp).2.twist_command_ i =
      (update_command COMMANDING_ACTIVE (update_until_twist solver c inp period) inp).2.ddx_ i
        * period := by
    intro i
    rw [f7, f5, a12]
    rfl
  refine ⟨(update_command COMMANDING_ACTIVE (update_until_twist solver c inp period) inp).1,
    (update_command COMMANDING_ACTIVE (update_until_twist solver c inp period) inp).2,
    displacement (update_kinematics solver (update_measure c inp) period),
    ?_, ?_, ?_, hddx, ?_, ?_⟩
  · rw [update_of_solver COMMANDING_ACTIVE c inp period solver hs]
  · rw [update_displacement_of_solver c inp period solver hs]
  · rw [f6, a6]
    exact set_tail3_set_head3 _ _ _ _
  · intro i
    rw [htw i, ← hddx]
  · intro hm hb hk hf ht hd hv hT
    have hacc : (update_command COMMANDING_ACTIVE (update_until_twist solver c inp period)
        inp).2.ddx_ = ![5, 0, 0, 0, 0, 0] := by
      rw [hddx, hd, hv, f6, a6, hf, ht, push_wrench]
      funext i
      simp [AdmittanceImpl.compute, div_scalar, vec_sub, scalar_mul, setZero, hm, hk]
    refine ⟨hacc, ?_⟩
    funext i
    rw [htw i, hacc, hT]
    fin_cases i <;> norm_num

theorem update_target_twist_witness :
    ∃ r c1,
      update 4 (on_activate (constructed_controller (some demo_solver)) true).2
        (input_at ![1, 0, 0, 0, 0, 0, 0] ![5, 0, 0] 4) (1 / 1000) = some (r, c1) ∧
      c1.ddx_ = ![5, 0, 0, 0, 0, 0] ∧ c1.twist_command_ = ![1 / 200, 0, 0, 0, 0, 0] := by
  obtain ⟨r, c1, d, h1, h2, -, -, -, h6⟩ := update_target_twist 4
    (on_activate (constructed_controller (some demo_solver)) true).2
    (input_at ![1, 0, 0, 0, 0, 0, 0] ![5, 0, 0] 4) (1 / 1000) demo_solver rfl
  obtain ⟨z1, z2⟩ := capture_cycle_zero demo_solver
    (on_activate (constructed_controller (some demo_solver)) true).2
    (input_at ![1, 0, 0, 0, 0, 0, 0] ![5, 0, 0] 4) (1 / 1000) rfl
  refine ⟨r, c1, h1, h6 rfl rfl rfl rfl rfl ?_ ?_ rfl⟩
  · rw [update_displacement_of_solver _ _ _ demo_solver rfl] at h2
    rw [← Option.some.inj h2]
    exact z1
  · rw [update_of_solver 4 _ _ _ demo_solver rfl] at h1
    have h : (update_command 4 (update_until_twist demo_solver
        (on_activate (constructed_controller (some demo_solver)) true).2
        (input_at ![1, 0, 0, 0, 0, 0, 0] ![5, 0, 0] 4) (1 / 1000))
        (input_at ![1, 0, 0, 0, 0, 0, 0] ![5, 0, 0] 4)).2 = c1 :=
      congrArg Prod.snd (Option.some.inj h1)
    rw [← h, (command_frame 4 _ _).2.2.2.1]
    exact z2

/-- C9 (failing input): forward kinematics reports roll 1 at the measured joint
positions, yet after the first `update` of an activation component 3 of the
current pose `x_` is 0, and on the next `update` at the same joint positions the
displacement handed to the admittance law has component 3 equal to -1 although
the arm has not moved: the orientation never reaches `x_`. -/
theorem orientation_missing_from_pose :
    (demo_solver.compute_fk ![0, 0, 0, 1, 0, 0, 0]).M.roll = 1 ∧
    (update 4 (on_activate (constructed_controller (some demo_solver)) true).2
        (input_at ![0, 0, 0, 1, 0, 0, 0] ![0, 0, 0] 4) (1 / 1000)).map
      (fun rc => rc.2.x_ 3) = some 0 ∧
    ((tracking_controller ![0, 0, 0, 1, 0, 0, 0]).bind fun c =>
        update_displacement c (input_at ![0, 0, 0, 1, 0, 0, 0] ![0, 0, 0] 4) (1 / 1000)).map
      (fun d => d 3) = some (-1) := by
  rw [tracking_controller_eq]
  have h4 : static_cast_int 4 = 4 := by
    have h := static_cast_int_intCast 4
    norm_num at h
    exact h
  have h3 : ((3 : Fin CARTESIAN_DOF) : Nat) = 3 := rfl
  simp [h3, update_displacement, update, update_measure, update_kinematics, update_until_twist,
    update_admittance, update_command, zero_all_values_, constructed_controller, demo_solver,
    input_at, displacement, vec_sub, set_head3, set_rpy, setZero, on_activate, h4]

/-- C10: for two consecutive `update` calls with the solver present, whatever the
session state of the first, the first call leaves `x_prev_` equal to its `x_`, and
the velocity of the second call is its `x_` minus the `x_` of the first call,
divided by the period of the second call. -/
theorem update_velocity_backward_difference {N_JNTS : Nat} (COMMANDING_ACTIVE : Int)
    (c : AdmittanceController N_JNTS) (solver : InvJacCtrlImpl N_JNTS)
    (inp1 inp2 : CycleInput N_JNTS) (period1 period2 : ℚ)
    (hs : c.inv_jac_ctrl_impl_ptr_ = some solver) :
    ∃ r1 c1 r2 c2,
      update COMMANDING_ACTIVE c inp1 period1 = some (r1, c1) ∧
      update COMMANDING_ACTIVE c1 inp2 period2 = some (r2, c2) ∧
      c1.x_prev_ = c1.x_ ∧
      ∀ i, c2.dx_ i = (c2.x_ i - c1.x_ i) / period2 := by
  obtain ⟨a1, -, a3, -, -, -, -, a8, -⟩ := state_after_twist solver c inp1 period1
  obtain ⟨f1, f2, -, -, -, -, -, f8, -, -, -⟩ := command_frame COMMANDING_ACTIVE
    (update_until_twist solver c inp1 period1) inp1
  have hs1 : (update_command COMMANDING_ACTIVE
      (update_until_twist solver c inp1 period1) inp1).2.inv_jac_ctrl_impl_ptr_ = some solver := by
    rw [(command_frame COMMANDING_ACTIVE _ inp1).2.2.2.2.2.2.2.2.2.1, a1, hs]
  obtain ⟨-, -, -, -, -, -, -, -, -, b10, -⟩ := state_after_twist solver
    (update_command COMMANDING_ACTIVE
      (update_until_twist solver c inp1 period1) inp1).2 inp2 period2
  obtain ⟨g1, -, -, g4, -⟩ := command_frame COMMANDING_ACTIVE
    (update_until_twist solver
      (update_command COMMANDING_ACTIVE (update_until_twist solver c inp1 period1) inp1).2
      inp2 period2) inp2
  refine ⟨(update_command COMMANDING_ACTIVE (update_until_twist solver c inp1 period1) inp1).1,
    (update_command COMMANDING_ACTIVE (update_until_twist solver c inp1 period1) inp1).2,
    (update_command COMMANDING_ACTIVE (update_until_twist solver
      (update_command COMMANDING_ACTIVE (update_until_twist solver c inp1 period1) inp1).2
      inp2 period2) inp2).1,
    (update_command COMMANDING_ACTIVE (update_until_twist solver
      (update_command COMMANDING_ACTIVE (update_until_twist solver c inp1 period1) inp1).2
      inp2 period2) inp2).2, ?_, ?_, ?_, ?_⟩
  · rw [update_of_solver COMMANDING_ACTIVE c inp1 period1 solver hs]
  · rw [update_of_solver COMMANDING_ACTIVE _ inp2 period2 solver hs1]
  · rw [f1, f2]; exact a8
  · intro i
    rw [g4, g1, b10, f8, a3, f2, a8, f1]
    rfl

theorem update_velocity_backward_difference_witness :
    ∃ r1 c1 r2 c2,
      update 4 (constructed_controller (some demo_solver))
        (input_at ![1, 0, 0, 0, 0, 0, 0] ![5, 0, 0] 3) (1 / 1000) = some (r1, c1) ∧
      update 4 c1 (input_at ![2, 0, 0, 0, 0, 0, 0] ![5, 0, 0] 4) (1 / 500) = some (r2, c2) ∧
      c1.x_prev_ = c1.x_ ∧
      ∀ i, c2.dx_ i = (c2.x_ i - c1.x_ i) / (1 / 500) :=
  update_velocity_backward_difference 4 (constructed_controller (some demo_solver))
    demo_solver (input_at ![1, 0, 0, 0, 0, 0, 0] ![5, 0, 0] 3)
    (input_at ![2, 0, 0, 0, 0, 0, 0] ![5, 0, 0] 4) (1 / 1000) (1 / 500) rfl

end lbr_ros2_control
